import Mathlib

/-!
Shallow embedding of the xoverlay overlay engine (Rust) for checking its
natural-language specification.  Each definition is translated from the
named source file; machine integers are modelled as `Nat`/`Int` (with
explicit wraparound where the source casts), and the source's `f32`
fractional coordinates are modelled as exact rationals `ℚ`.
-/

namespace XOverlay

/-! ## Colors and depths — `src/color.rs` -/

/-- Pixel depth enum, `src/color.rs` lines 138-144. -/
inductive Depth where
  | D1
  | D8
  | D16
  | D24
  | D32
  deriving DecidableEq, Repr

/-- `to_rgba`, `src/color.rs` lines 21-28: add an opaque alpha channel. -/
def to_rgba (value : Nat) : Nat :=
  let r := (value >>> 16) &&& 0xFF
  let g := (value >>> 8) &&& 0xFF
  let b := value &&& 0xFF
  let a := 0xFF
  (a <<< 24) ||| (r <<< 16) ||| (g <<< 8) ||| b

/-- `to_rgb`, `src/color.rs` lines 40-46: drop the alpha channel. -/
def to_rgb (value : Nat) : Nat :=
  let r := (value >>> 16) &&& 0xFF
  let g := (value >>> 8) &&& 0xFF
  let b := value &&& 0xFF
  (r <<< 16) ||| (g <<< 8) ||| b

/-- `to_16bit`, `src/color.rs` lines 60-67: 5-5-5 packing. -/
def to_16bit (value : Nat) : Nat :=
  let r := (value >>> 16) &&& 0xFF
  let g := (value >>> 8) &&& 0xFF
  let b := value &&& 0xFF
  ((r >>> 3) <<< 10) ||| ((g >>> 3) <<< 5) ||| ((b >>> 3) &&& 0x7FFF)

/-- `to_8bit`, `src/color.rs` lines 80-89: grayscale average. -/
def to_8bit (value : Nat) : Nat :=
  let r := (value >>> 16) &&& 0xFF
  let g := (value >>> 8) &&& 0xFF
  let b := value &&& 0xFF
  ((r + g + b) / 3) &&& 0xFF

/-- `to_1bit`, `src/color.rs` lines 105-111: 0 stays 0, anything positive becomes 1. -/
def to_1bit (value : Nat) : Nat :=
  if value > 0 then 1 else 0

/-- `for_depth`, `src/color.rs` lines 124-132. -/
def for_depth (value : Nat) (depth : Depth) : Nat :=
  match depth with
  | Depth.D32 => to_rgba value
  | Depth.D24 => to_rgb value
  | Depth.D16 => to_16bit value
  | Depth.D8 => to_8bit value
  | Depth.D1 => to_1bit value

/-- The `Color` enum, `src/color.rs` lines 192-239.  `RGB`/`RGBA` components
are `u8` in the source, modelled as `Nat`. -/
inductive Color where
  | BLACK
  | BLUE
  | BROWN
  | CYAN
  | GRAY
  | GREEN
  | INDIGO
  | LIME
  | MAGENTA
  | NAVY
  | ORANGE
  | PINK
  | PURPLE
  | RED
  | RGB (r g b : Nat)
  | RGBA (r g b a : Nat)
  | SILVER
  | TRANSPARENT
  | WHITE
  | YELLOW
  deriving DecidableEq, Repr

/-- `Color::value`, `src/color.rs` lines 288-313: named palette colors are
projected through `for_depth`; `RGB`/`RGBA` return their packed value with
the depth argument unused; `TRANSPARENT` is always 0. -/
def Color.value (c : Color) (depth : Depth) : Nat :=
  match c with
  | Color.BLACK => for_depth 0x000000 depth
  | Color.BLUE => for_depth 0x0000FF depth
  | Color.BROWN => for_depth 0xA52A2A depth
  | Color.CYAN => for_depth 0x00FFFF depth
  | Color.GRAY => for_depth 0x808080 depth
  | Color.GREEN => for_depth 0x008000 depth
  | Color.INDIGO => for_depth 0x4B0082 depth
  | Color.LIME => for_depth 0x00FF00 depth
  | Color.MAGENTA => for_depth 0xFF00FF depth
  | Color.NAVY => for_depth 0x000080 depth
  | Color.ORANGE => for_depth 0xFFA500 depth
  | Color.PINK => for_depth 0xFFC0CB depth
  | Color.PURPLE => for_depth 0x800080 depth
  | Color.RED => for_depth 0xFF0000 depth
  | Color.RGB r g b => (r <<< 16) ||| (g <<< 8) ||| b
  | Color.RGBA r g b a => (a <<< 24) ||| (r <<< 16) ||| (g <<< 8) ||| b
  | Color.SILVER => for_depth 0xC0C0C0 depth
  | Color.TRANSPARENT => 0
  | Color.WHITE => for_depth 0xFFFFFF depth
  | Color.YELLOW => for_depth 0xFFFF00 depth

/-- The named palette constants of `Color` (every variant that is neither
`RGB`, `RGBA` nor the `TRANSPARENT` sentinel). -/
def Color.isNamedPalette (c : Color) : Bool :=
  match c with
  | Color.RGB _ _ _ => false
  | Color.RGBA _ _ _ _ => false
  | Color.TRANSPARENT => false
  | _ => true

/-! ## 2D vectors — `src/math/vec.rs` -/

/-- Generic 2D vector, `src/math/vec.rs` lines 19-22. -/
structure Vec2 (α : Type) where
  x : α
  y : α
  deriving DecidableEq, Repr

/-- `Vec2::hammard`, `src/math/vec.rs` lines 123-131: componentwise product. -/
def Vec2.hammard {α : Type} [Mul α] (v rhs : Vec2 α) : Vec2 α :=
  ⟨v.x * rhs.x, v.y * rhs.y⟩

/-- `Vec2::inv_hammard`, `src/math/vec.rs` lines 134-142: componentwise quotient. -/
def Vec2.inv_hammard {α : Type} [Div α] (v rhs : Vec2 α) : Vec2 α :=
  ⟨v.x / rhs.x, v.y / rhs.y⟩

/-- `Vec2::convert` on a `Vec2<u16>` target type `f32`, modelled as the cast
`Nat → ℚ` componentwise (`src/math/vec.rs` lines 55-65). -/
def Vec2.convert (v : Vec2 Nat) : Vec2 ℚ :=
  ⟨(v.x : ℚ), (v.y : ℚ)⟩

/-! ## Render pipeline — `Overlay::draw`, `src/overlay.rs` lines 327-472

The render queue holds trait objects satisfying the `Shape` contract
(`src/shape/mod.rs` lines 104-142): the pipeline only reads each shape's
foreground/background color and invokes its `draw` with the current
graphics context.  A shape's `draw` is abstracted as painting its set of
covered pixels with the graphics context's current foreground value (the
behaviour of the rectangle/arc renderers); the covered set is recorded as
an explicit list of pixel coordinates so that everything is decidable. -/

/-- Abstraction of a queued shape for the render pipeline: its configured
colors plus the pixel footprint its `draw` call paints. -/
structure ShapeData where
  fg : Color
  bg : Color
  covers : List (Nat × Nat)
  deriving DecidableEq, Repr

/-- Graphics-context state tracked by `GcontextWrapperExt`
(`src/shape/mod.rs` lines 24-99): foreground and background pixel values.
A GC created with `None`/`None` has the X11 defaults, foreground 0 and
background 1. -/
structure GCState where
  fg : Nat
  bg : Nat
  deriving DecidableEq, Repr

/-- Painting one shape: every covered pixel takes the given foreground
value, every other pixel keeps its previous value. -/
def paint (img : Nat × Nat → Nat) (s : ShapeData) (fgVal : Nat) : Nat × Nat → Nat :=
  fun p => if p ∈ s.covers then fgVal else img p

/-- The graphics-context foreground installed for a shape in the mask pass,
`src/overlay.rs` lines 382-389: `Color::BLACK.value(D1)` when the shape's
foreground is `TRANSPARENT`, otherwise the shape's own foreground projected
by `Color::value` at the mask pixmap's depth `D1`. -/
def maskForeground (s : ShapeData) : Nat :=
  if s.fg = Color.TRANSPARENT then Color.BLACK.value Depth.D1
  else s.fg.value Depth.D1

/-- The graphics-context background installed for a shape in the mask pass,
`src/overlay.rs` lines 391-398. -/
def maskBackground (s : ShapeData) : Nat :=
  if s.bg = Color.TRANSPARENT then Color.BLACK.value Depth.D1
  else s.bg.value Depth.D1

/-- The mask pass of `Overlay::draw`, `src/overlay.rs` lines 379-402: draw
every queued shape, in order, into the 1-bit pixmap with the foreground
chosen by `maskForeground`.  `init` is the (undefined) initial content of
the freshly created pixmap. -/
def maskPass (queue : List ShapeData) (init : Nat × Nat → Nat) : Nat × Nat → Nat :=
  queue.foldl (fun img s => paint img s (maskForeground s)) init

/-- The sequence of `(shape, graphics-context foreground)` draw calls the
mask pass issues, in queue order. -/
def maskDraws (queue : List ShapeData) : List (ShapeData × Nat) :=
  queue.map (fun s => (s, maskForeground s))

/-- One color-pass step for the graphics context, `src/overlay.rs` lines
434-444: the foreground (resp. background) is updated to the shape's color
at the pixmap depth only when that color is not `TRANSPARENT`; otherwise
the previous value is kept. -/
def colorStepGC (depth : Depth) (gc : GCState) (s : ShapeData) : GCState :=
  { fg := if s.fg ≠ Color.TRANSPARENT then s.fg.value depth else gc.fg,
    bg := if s.bg ≠ Color.TRANSPARENT then s.bg.value depth else gc.bg }

/-- The color pass of `Overlay::draw`, `src/overlay.rs` lines 420-448:
every queued shape is drawn, in order, into a full-depth pixmap, after the
conditional foreground/background update of `colorStepGC`. -/
def colorPass (depth : Depth) (queue : List ShapeData) (gc : GCState)
    (init : Nat × Nat → Nat) : GCState × (Nat × Nat → Nat) :=
  queue.foldl
    (fun st s =>
      let gc2 := colorStepGC depth st.1 s
      (gc2, paint st.2 s gc2.fg))
    (gc, init)

/-- The submitted bounding-shape bit at a pixel: a depth-1 pixmap keeps the
low bit of the value written to it, and `shape_mask` (`src/overlay.rs`
lines 407-414) makes a window pixel visible exactly when that bit is 1. -/
def maskBit (queue : List ShapeData) (init : Nat × Nat → Nat) (p : Nat × Nat) : Nat :=
  maskPass queue init p % 2

/-- The displayed output of one `Overlay::draw` call at a pixel: the color
pixmap's value where the submitted bounding shape keeps the pixel, and
nothing (the host window shows through) where it was cut out. -/
def displayed (depth : Depth) (queue : List ShapeData) (maskInit colorInit : Nat × Nat → Nat)
    (gc0 : GCState) (p : Nat × Nat) : Option Nat :=
  if maskBit queue maskInit p = 1 then some ((colorPass depth queue gc0 colorInit).2 p)
  else none

/-! ## Keys and buttons — `src/key.rs`, `src/event.rs` -/

/-- `KeyRef`, `src/key.rs`: the closed key-symbol set (the source's
`Unkown(PhantomData)` is modelled as a plain constructor). -/
inductive KeyRef where
  | ArrowUp
  | ArrowRight
  | ArrowDown
  | ArrowLeft
  | Unkown
  deriving DecidableEq, Repr

/-- `KeyRef::from(u8)`, `src/key.rs`: keycodes 111/114/116/113 map to the
arrows, everything else to `Unkown`. -/
def KeyRef.ofRaw (detail : Nat) : KeyRef :=
  if detail = 111 then KeyRef.ArrowUp
  else if detail = 114 then KeyRef.ArrowRight
  else if detail = 116 then KeyRef.ArrowDown
  else if detail = 113 then KeyRef.ArrowLeft
  else KeyRef.Unkown

/-- `Key`, `src/key.rs`: newtype around `KeyRef`. -/
structure Key where
  ref : KeyRef
  deriving DecidableEq, Repr

/-- `Key::from_xorg_raw`, `src/key.rs`. -/
def Key.from_xorg_raw (detail : Nat) : Key :=
  ⟨KeyRef.ofRaw detail⟩

/-- `Button`, `src/event.rs` lines 21-26. -/
inductive Button where
  | Left
  | Middle
  | Right
  | Unknown
  deriving DecidableEq, Repr

/-- The button-code match of `Event::handle_event`, `src/event.rs` lines
152-157: codes 1/2/3 map to Left/Middle/Right, anything else to Unknown. -/
def Button.ofDetail (detail : Nat) : Button :=
  if detail = 1 then Button.Left
  else if detail = 2 then Button.Middle
  else if detail = 3 then Button.Right
  else Button.Unknown

/-! ## Event translation — `src/event.rs` -/

/-- Fractional coordinate (`Coord = Vec2<f32>`, `src/shape/coord.rs` lines
47-48), modelled over ℚ. -/
def Coord : Type := Vec2 ℚ

instance : DecidableEq Coord := by
  unfold Coord
  infer_instance

/-- The semantic `Event` set, `src/event.rs` lines 30-57 (the source's
spelling `Unkown` is kept). -/
inductive Event where
  | ParentResize (size : Vec2 Nat)
  | MousePress (button : Button) (coord : Coord)
  | MouseMotion (coord : Coord)
  | KeyPress (key : Key)
  | KeyRelease (key : Key)
  | Redraw
  | StopEventLoop
  | Nothing
  | Unkown
  deriving DecidableEq

/-- The raw X server notifications `Event::handle_event` distinguishes,
`src/event.rs` lines 113-181.  `XinputMotion` carries the `i32` fields
`event_x`/`event_y`; the raw key/button presses carry their `u32` `detail`
field; `ConfigureNotify` carries the `u32` window and `u16` width/height. -/
inductive XEvent where
  | XinputMotion (event_x event_y : Int)
  | XinputRawKeyPress (detail : Nat)
  | XinputRawButtonPress (detail : Nat)
  | ConfigureNotify (window : Nat) (width height : Nat)
  | MapNotify
  | NoExposure
  | Other
  deriving DecidableEq

/-- The overlay state that event translation reads (`src/overlay.rs`):
the parent window's id, the overlay window's recorded size (what
`Overlay::size()` returns, `src/overlay.rs` lines 849-851), the last
recorded mouse coordinate (`Overlay::mouse_coord`), and the result of the
`has_focus` server query. -/
structure EventCtx where
  parentId : Nat
  overlaySize : Vec2 Nat
  lastMousePos : Coord
  focus : Bool

/-- `Event::handle_event`, `src/event.rs` lines 112-182.  Motion events
wrap each `i32` coordinate with the source's `% (u16::MAX as i32)`
(Rust `%` is the truncated remainder, `Int.tmod`) and divide by the
current overlay extent; raw key/button presses are gated on `has_focus`;
`ConfigureNotify` on the parent id with a size different from the recorded
overlay size becomes `ParentResize`; `MapNotify`/`NoExposure` become
`Redraw`; everything else is `Unkown`. -/
def Event.handle_event (o : EventCtx) (xevent : XEvent) : Event :=
  match xevent with
  | XEvent.XinputMotion event_x event_y =>
      let x := Int.tmod event_x 65535
      let y := Int.tmod event_y 65535
      let screen := o.overlaySize
      let coord : Coord := ⟨(x : ℚ) / (screen.x : ℚ), (y : ℚ) / (screen.y : ℚ)⟩
      Event.MouseMotion coord
  | XEvent.XinputRawKeyPress detail =>
      if !o.focus then Event.Nothing
      else Event.KeyPress (Key.from_xorg_raw (detail % 256))
  | XEvent.XinputRawButtonPress detail =>
      if !o.focus then Event.Nothing
      else Event.MousePress (Button.ofDetail detail) o.lastMousePos
  | XEvent.ConfigureNotify window width height =>
      let new_size : Vec2 Nat := ⟨width, height⟩
      if window = o.parentId ∧ new_size ≠ o.overlaySize then
        Event.ParentResize new_size
      else Event.Unkown
  | XEvent.MapNotify => Event.Redraw
  | XEvent.NoExposure => Event.Redraw
  | XEvent.Other => Event.Unkown

/-! ## Debounce — `Event::is_debounce`, `src/event.rs` lines 62-110 -/

/-- `Event::debounce_table_index`, `src/event.rs` lines 80-92. -/
def Event.debounce_table_index (e : Event) : Fin 9 :=
  match e with
  | Event.ParentResize _ => 0
  | Event.MousePress _ _ => 1
  | Event.MouseMotion _ => 2
  | Event.KeyPress _ => 3
  | Event.KeyRelease _ => 4
  | Event.Redraw => 5
  | Event.StopEventLoop => 6
  | Event.Nothing => 7
  | Event.Unkown => 8

/-- `Event::debounce_table_timing`, `src/event.rs` lines 94-106, in
milliseconds: 25 for `Redraw`, 0 for every other variant. -/
def Event.debounce_table_timing (e : Event) : Nat :=
  match e with
  | Event.Redraw => 25
  | _ => 0

/-- The debounce table, `[std::time::Instant; 9]`: the per-slot timestamp
of the last accepted event (initialised to the creation instant by
`Event::gen_debounce_table`).  Time is modelled as `Nat` milliseconds. -/
def DebounceTable : Type := Fin 9 → Nat

/-- `Event::is_debounce`, `src/event.rs` lines 70-78, at current time
`now`: when less than the variant's timing has elapsed since the slot's
timestamp the event is debounced and the table is unchanged; otherwise the
slot is set to `now` and the event passes.  Returns (debounced?, table). -/
def Event.is_debounce (e : Event) (now : Nat) (table : DebounceTable) :
    Bool × DebounceTable :=
  let i := e.debounce_table_index
  if now - table i < e.debounce_table_timing then
    (true, table)
  else
    (false, fun j => if j = i then now else table j)

/-! ## Window geometry — `src/drawable/window.rs` -/

/-- `Mapping`, `src/drawable/window.rs` lines 49-56.  `Pixels` carries an
`i16` position and `u16` size; `Percent` carries `f32` fractions, modelled
over ℚ. -/
inductive Mapping where
  | FullScreen
  | Pixels (pos : Vec2 Int) (size : Vec2 Nat)
  | Percent (fpos fsize : Vec2 ℚ)
  deriving DecidableEq

/-- The two validation failures of geometry resolution: the source raises
the string errors `"Invalid coordinates"` and `"Invalid percentages"`
(`src/drawable/window.rs` lines 141 and 156). -/
inductive GeometryError where
  | InvalidCoordinates
  | InvalidPercentage
  deriving DecidableEq, Repr

/-- Recorded geometry of a `Window`, `src/drawable/window.rs` lines 86-99
(the fields read and written by creation and refresh). -/
structure WindowState where
  mapping : Mapping
  pos : Vec2 Int
  size : Vec2 Nat
  deriving DecidableEq

/-- The shared geometry resolution of `Window::new`, `src/drawable/window.rs`
lines 127-168: `FullScreen` covers the parent; `Pixels` is validated with
the source's check `x < 0 || y < 0 || (x as u16 + width) > parent_width
|| (y as u16 + height) > parent_height`, whose `u16` sum wraps modulo
2^16 when `x + width` exceeds 65535 (release semantics; a debug build
would panic there), modelled as `% 65536`; `Percent` is validated
componentwise nonnegative with offset+extent at most 1 per axis — the
`f32` fractions, sums and comparisons are modelled in exact rational
arithmetic — and then scaled by the parent extent (the source's
`as i16`/`as u16` casts truncate the nonnegative products, i.e. take
their floor). -/
def Window.resolve (mapping : Mapping) (parent_size : Vec2 Nat) :
    Except GeometryError (Vec2 Int × Vec2 Nat) :=
  match mapping with
  | Mapping.FullScreen => Except.ok (⟨0, 0⟩, parent_size)
  | Mapping.Pixels pos size =>
      if pos.x < 0 ∨ pos.y < 0 ∨ (pos.x.toNat + size.x) % 65536 > parent_size.x
          ∨ (pos.y.toNat + size.y) % 65536 > parent_size.y then
        Except.error GeometryError.InvalidCoordinates
      else
        Except.ok (pos, size)
  | Mapping.Percent fpos fsize =>
      if fpos.x < 0 ∨ fpos.y < 0 ∨ fsize.x < 0 ∨ fsize.y < 0
          ∨ fpos.x + fsize.x > 1 ∨ fpos.y + fsize.y > 1 then
        Except.error GeometryError.InvalidPercentage
      else
        Except.ok (⟨⌊(parent_size.x : ℚ) * fpos.x⌋, ⌊(parent_size.y : ℚ) * fpos.y⌋⟩,
          ⟨(⌊(parent_size.x : ℚ) * fsize.x⌋).toNat, (⌊(parent_size.y : ℚ) * fsize.y⌋).toNat⟩)

/-- `Window::refresh` with `Some(parent)`, `src/drawable/window.rs` lines
217-286: re-run the stored mapping's resolution against the parent extent.
Validation precedes every assignment, so on error the method early-returns
with the recorded geometry untouched; on success the new geometry is
recorded and one `configure_window` request is issued (returned as the
`Bool`). -/
def Window.refresh (w : WindowState) (parent_size : Vec2 Nat) :
    WindowState × Bool × Option GeometryError :=
  match Window.resolve w.mapping parent_size with
  | Except.error e => (w, false, some e)
  | Except.ok g => ({ w with pos := g.1, size := g.2 }, true, none)

/-! ## Overlay refresh and resize policies — `src/overlay.rs` lines 563-625 -/

/-- `ResizePolicy`, `src/overlay.rs` lines 95-101. -/
inductive ResizePolicy where
  | KeepAspectRatio
  | KeepWidth
  | KeepHeight
  | KeepBoth
  deriving DecidableEq, Repr

/-- The fractional geometry of a queued shape as stored by the `Shape`
contract (`position`/`size`, `src/shape/mod.rs` lines 128-141). -/
structure ShapeGeom where
  pos : Vec2 ℚ
  size : Vec2 ℚ
  deriving DecidableEq

/-- The per-shape rescaling of `Overlay::refresh`, `src/overlay.rs` lines
575-623, with `previous` the overlay window's size before its refresh and
`new_size` the function's argument (the parent's new size).  `KeepWidth`
and `KeepHeight` scale one axis by `previous/new_size`; `KeepBoth` applies
`hammard previous` then `inv_hammard new_size` to both position and size;
`KeepAspectRatio` does nothing. -/
def applyResizePolicy (policy : ResizePolicy) (previous new_size : Vec2 Nat)
    (shapes : List ShapeGeom) : List ShapeGeom :=
  match policy with
  | ResizePolicy.KeepAspectRatio => shapes
  | ResizePolicy.KeepWidth =>
      shapes.map (fun s =>
        { size := ⟨s.size.x * (previous.x : ℚ) / (new_size.x : ℚ), s.size.y⟩,
          pos := ⟨s.pos.x * (previous.x : ℚ) / (new_size.x : ℚ), s.pos.y⟩ })
  | ResizePolicy.KeepHeight =>
      shapes.map (fun s =>
        { size := ⟨s.size.x, s.size.y * (previous.y : ℚ) / (new_size.y : ℚ)⟩,
          pos := ⟨s.pos.x, s.pos.y * (previous.y : ℚ) / (new_size.y : ℚ)⟩ })
  | ResizePolicy.KeepBoth =>
      shapes.map (fun s =>
        { size := (s.size.hammard previous.convert).inv_hammard new_size.convert,
          pos := (s.pos.hammard previous.convert).inv_hammard new_size.convert })

/-- The overlay driver state touched by `Overlay::refresh`: the parent's
and the overlay window's recorded geometry, the render queue's fractional
geometry, and the active resize policy (`src/overlay.rs` lines 64-101). -/
structure OverlayGeom where
  parentSize : Vec2 Nat
  window : WindowState
  shapes : List ShapeGeom
  policy : ResizePolicy
  deriving DecidableEq

/-- `Overlay::refresh`, `src/overlay.rs` lines 563-625: when the incoming
parent size equals the overlay window's recorded size the call returns at
once; otherwise the parent's recorded size is updated (`resize_event`),
the overlay window is refreshed against it, and the resize policy rescales
every queued shape using the overlay's previous size and the incoming
parent size.  Returns the new state, the number of `configure_window`
requests issued, and the propagated resolution error if any. -/
def Overlay.refresh (st : OverlayGeom) (new_size : Vec2 Nat) :
    OverlayGeom × Nat × Option GeometryError :=
  if new_size = st.window.size then
    (st, 0, none)
  else
    let st1 := { st with parentSize := new_size }
    let previous := st.window.size
    match Window.refresh st.window new_size with
    | (w2, _, some e) => ({ st1 with window := w2 }, 0, some e)
    | (w2, _, none) =>
        let shapes2 := applyResizePolicy st.policy previous new_size st.shapes
        ({ st1 with window := w2, shapes := shapes2 }, 1, none)

/-! ## Event dispatch and debounce filtering — `Overlay::handle_event`,
`src/overlay.rs` lines 642-677.

The built-in reactions are modelled as a counter of `Overlay::draw`
invocations (`ParentResize` triggers `refresh(..).draw()`, `Redraw`
triggers `draw()`; the other variants draw nothing); the caller's handler
is taken to return `None`, so no synthetic follow-up event is chained. -/

/-- Dispatch-loop state: the debounce table plus the number of `draw`
invocations so far. -/
structure LoopState where
  table : DebounceTable
  draws : Nat

/-- One `Overlay::handle_event` step at time `now`: a debounced event is
dropped before dispatch (`src/overlay.rs` lines 647-651); otherwise the
built-in reaction runs (`ParentResize`/`Redraw` call `draw`). -/
def Overlay.handleEventStep (st : LoopState) (now : Nat) (e : Event) : LoopState :=
  match Event.is_debounce e now st.table with
  | (true, table2) => { st with table := table2 }
  | (false, table2) =>
      match e with
      | Event.ParentResize _ => { table := table2, draws := st.draws + 1 }
      | Event.Redraw => { table := table2, draws := st.draws + 1 }
      | _ => { table := table2, draws := st.draws }

/-- Processing a timed event sequence through `Overlay::handle_event`. -/
def Overlay.runEvents (st : LoopState) (events : List (Nat × Event)) : LoopState :=
  events.foldl (fun acc te => Overlay.handleEventStep acc te.1 te.2) st

/-! ## Helper lemmas about the render pipeline -/

/-- A pixel covered by no shape of a queue is untouched by the mask pass. -/
theorem maskPass_untouched (queue : List ShapeData) (init : Nat × Nat → Nat)
    (p : Nat × Nat) (h : ∀ t ∈ queue, p ∉ t.covers) :
    maskPass queue init p = init p := by
  induction queue generalizing init with
  | nil => rfl
  | cons s rest ih =>
      have hs : p ∉ s.covers := h s (List.mem_cons_self s rest)
      have hrest : ∀ t ∈ rest, p ∉ t.covers := fun t ht => h t (List.mem_cons_of_mem s ht)
      show maskPass rest (paint init s (maskForeground s)) p = init p
      rw [ih _ hrest]
      simp [paint, hs]

/-- A pixel covered by no shape of a queue is untouched by the color pass. -/
theorem colorPass_untouched (depth : Depth) (queue : List ShapeData) (gc : GCState)
    (init : Nat × Nat → Nat) (p : Nat × Nat) (h : ∀ t ∈ queue, p ∉ t.covers) :
    (colorPass depth queue gc init).2 p = init p := by
  induction queue generalizing gc init with
  | nil => rfl
  | cons s rest ih =>
      have hs : p ∉ s.covers := h s (List.mem_cons_self s rest)
      have hrest : ∀ t ∈ rest, p ∉ t.covers := fun t ht => h t (List.mem_cons_of_mem s ht)
      show (colorPass depth rest (colorStepGC depth gc s)
        (paint init s (colorStepGC depth gc s).fg)).2 p = init p
      rw [ih _ _ hrest]
      simp [paint, hs]

/-- The mask pass over a concatenation runs the second part on the image
produced by the first. -/
theorem maskPass_append (xs ys : List ShapeData) (init : Nat × Nat → Nat) :
    maskPass (xs ++ ys) init = maskPass ys (maskPass xs init) := by
  simp [maskPass, List.foldl_append]

/-! ## C10 — `Color::value` ignores the depth for `RGB`/`RGBA` -/

/-- C10: `Color::value` ignores the requested depth for the `RGB` and
`RGBA` variants — for every component choice and every depth (including
the 1-bit mask depth) it returns the packed value unchanged, so at depth 1
it is not restricted to the set 0, 1, unlike the named palette colors,
which go through the per-depth conversion `for_depth`. -/
theorem color_value_rgb_ignores_depth (r g b a : Nat) (d : Depth) :
    Color.value (Color.RGB r g b) d = (r <<< 16) ||| (g <<< 8) ||| b
    ∧ Color.value (Color.RGBA r g b a) d = (a <<< 24) ||| (r <<< 16) ||| (g <<< 8) ||| b
    ∧ (∀ c : Color, c.isNamedPalette = true →
        c.value Depth.D1 = 0 ∨ c.value Depth.D1 = 1)
    ∧ (∀ c : Color, c.isNamedPalette = true → ∀ d2 : Depth,
        ∃ raw : Nat, c.value d2 = for_depth raw d2)
    ∧ Color.value (Color.RGB 255 0 0) Depth.D1 = 0xFF0000
    ∧ ¬ (Color.value (Color.RGB 255 0 0) Depth.D1 = 0
        ∨ Color.value (Color.RGB 255 0 0) Depth.D1 = 1) := by
  refine ⟨rfl, rfl, ?_, ?_, by decide, by decide⟩
  · intro c hc
    cases c <;> simp [Color.isNamedPalette] at hc <;> decide
  · intro c hc d2
    cases c <;> simp [Color.isNamedPalette] at hc <;> exact ⟨_, rfl⟩

/-- Witness for `color_value_rgb_ignores_depth` at concrete components and
the 1-bit depth. -/
theorem color_value_rgb_ignores_depth_witness :
    Color.value (Color.RGB 1 2 3) Depth.D1 = (1 <<< 16) ||| (2 <<< 8) ||| 3
    ∧ (Color.value Color.BLACK Depth.D1 = 0 ∨ Color.value Color.BLACK Depth.D1 = 1) :=
  ⟨(color_value_rgb_ignores_depth 1 2 3 4 Depth.D1).1,
    (color_value_rgb_ignores_depth 1 2 3 4 Depth.D1).2.2.1 Color.BLACK rfl⟩

/-! ## C1 — the graphics-context foreground of the mask pass -/

/-- C1 (amended): in the mask pass of `Overlay::draw`, every queued shape
is drawn with the graphics-context foreground set to `maskForeground`:
logical 0 for a `TRANSPARENT` foreground, and otherwise the shape's own
foreground projected to depth 1 — which is 1 for every named palette color
except `BLACK`, 0 for `BLACK`, and the unprojected packed value for the
`RGB` variant, so the non-transparent foreground is not forced to
logical 1. -/
theorem mask_pass_foreground_classification (queue : List ShapeData) (s : ShapeData)
    (h : s ∈ queue) :
    (s, maskForeground s) ∈ maskDraws queue
    ∧ (s.fg = Color.TRANSPARENT → maskForeground s = 0)
    ∧ (s.fg.isNamedPalette = true → s.fg ≠ Color.BLACK → maskForeground s = 1)
    ∧ (s.fg = Color.BLACK → maskForeground s = 0)
    ∧ (∀ r g b, s.fg = Color.RGB r g b →
        maskForeground s = (r <<< 16) ||| (g <<< 8) ||| b) := by
  refine ⟨List.mem_map_of_mem _ h, ?_, ?_, ?_, ?_⟩
  · intro hfg
    simp [maskForeground, hfg]
    decide
  · intro hnamed hblack
    unfold maskForeground
    cases hc : s.fg <;> simp [Color.isNamedPalette, hc] at hnamed ⊢ <;>
      first
        | decide
        | (exact absurd hc hblack)
  · intro hfg
    simp [maskForeground, hfg]
    decide
  · intro r g b hfg
    simp [maskForeground, hfg, Color.value]

/-- Witness for `mask_pass_foreground_classification`: a `BLUE` shape in a
one-element queue is drawn with mask foreground 1. -/
theorem mask_pass_foreground_classification_witness :
    (⟨Color.BLUE, Color.BLACK, [(0, 0)]⟩, maskForeground ⟨Color.BLUE, Color.BLACK, [(0, 0)]⟩)
        ∈ maskDraws [⟨Color.BLUE, Color.BLACK, [(0, 0)]⟩]
    ∧ maskForeground ⟨Color.BLUE, Color.BLACK, [(0, 0)]⟩ = 1 :=
  ⟨(mask_pass_foreground_classification [⟨Color.BLUE, Color.BLACK, [(0, 0)]⟩] _
      (List.mem_singleton.mpr rfl)).1,
    (mask_pass_foreground_classification [⟨Color.BLUE, Color.BLACK, [(0, 0)]⟩] _
      (List.mem_singleton.mpr rfl)).2.2.1 rfl (by decide)⟩

/-- C1 counterexample: a shape whose configured foreground is `BLACK` is
not `TRANSPARENT`, yet the mask pass draws it with graphics-context
foreground 0, not the claimed logical 1. -/
theorem mask_pass_black_not_opaque :
    maskDraws [⟨Color.BLACK, Color.BLACK, [(0, 0)]⟩]
      = [(⟨Color.BLACK, Color.BLACK, [(0, 0)]⟩, 0)]
    ∧ Color.BLACK ≠ Color.TRANSPARENT
    ∧ (0 : Nat) ≠ 1 := by
  refine ⟨?_, by decide, by decide⟩
  rfl

/-! ## C2 — transparent shapes and the submitted mask -/

/-- C2 (amended): a queued shape with `TRANSPARENT` foreground covering a
pixel makes the submitted bounding-shape mask 0 at that pixel — and so the
displayed output there is cut out, never an opaque pixel — provided no
later-queued shape covers the same pixel (a later shape overdraws the
mask, which is the z-order guarantee). -/
theorem transparent_region_cut_out (pre post : List ShapeData) (s : ShapeData)
    (p : Nat × Nat) (maskInit colorInit : Nat × Nat → Nat) (gc0 : GCState) (d : Depth)
    (hfg : s.fg = Color.TRANSPARENT) (hp : p ∈ s.covers)
    (hpost : ∀ t ∈ post, p ∉ t.covers) :
    maskPass (pre ++ s :: post) maskInit p = 0
    ∧ displayed d (pre ++ s :: post) maskInit colorInit gc0 p = none := by
  have hmask : maskPass (pre ++ s :: post) maskInit p = 0 := by
    rw [maskPass_append]
    show maskPass post (paint (maskPass pre maskInit) s (maskForeground s)) p = 0
    rw [maskPass_untouched post _ p hpost]
    simp [paint, hp, maskForeground, hfg]
    decide
  refine ⟨hmask, ?_⟩
  simp [displayed, maskBit, hmask]

/-- Witness for `transparent_region_cut_out`: a single transparent shape
covering pixel (0,0), with garbage 7 as the uninitialised mask content. -/
theorem transparent_region_cut_out_witness :
    maskPass [⟨Color.TRANSPARENT, Color.TRANSPARENT, [(0, 0)]⟩] (fun _ => 7) (0, 0) = 0
    ∧ displayed Depth.D24 [⟨Color.TRANSPARENT, Color.TRANSPARENT, [(0, 0)]⟩]
        (fun _ => 7) (fun _ => 7) ⟨0, 1⟩ (0, 0) = none :=
  transparent_region_cut_out [] [] ⟨Color.TRANSPARENT, Color.TRANSPARENT, [(0, 0)]⟩
    (0, 0) (fun _ => 7) (fun _ => 7) ⟨0, 1⟩ Depth.D24 rfl (by decide)
    (by intro t ht; cases ht)

/-- C2 counterexample: with a transparent shape at pixel (0,0) followed by
an opaque `RED` shape covering the same pixel, the submitted mask at (0,0)
is 1, not the claimed cut-out 0, and the displayed output there is the
opaque red pixel. -/
theorem transparent_region_overdrawn_not_cut_out :
    maskPass [⟨Color.TRANSPARENT, Color.TRANSPARENT, [(0, 0)]⟩,
        ⟨Color.RED, Color.TRANSPARENT, [(0, 0)]⟩] (fun _ => 0) (0, 0) = 1
    ∧ (1 : Nat) ≠ 0
    ∧ displayed Depth.D24 [⟨Color.TRANSPARENT, Color.TRANSPARENT, [(0, 0)]⟩,
        ⟨Color.RED, Color.TRANSPARENT, [(0, 0)]⟩] (fun _ => 0) (fun _ => 0) ⟨0, 1⟩ (0, 0)
      = some 0xFF0000 := by
  refine ⟨by rfl, by decide, by rfl⟩

/-! ## C3 — `ConfigureNotify` translation -/

/-- C3: a structure-change (`ConfigureNotify`) notification translates to
`ParentResize(new_size)` exactly when it is for the parent window's handle
and the notified size differs from the currently recorded size (what
`Overlay::size()` returns); a same-size notification on the parent, and a
structure-change on any other handle, both translate to `Unkown`. -/
theorem configure_notify_translation (o : EventCtx) (w width height : Nat) :
    (w = o.parentId → (⟨width, height⟩ : Vec2 Nat) ≠ o.overlaySize →
      Event.handle_event o (XEvent.ConfigureNotify w width height)
        = Event.ParentResize ⟨width, height⟩)
    ∧ (w = o.parentId → (⟨width, height⟩ : Vec2 Nat) = o.overlaySize →
      Event.handle_event o (XEvent.ConfigureNotify w width height) = Event.Unkown)
    ∧ (w ≠ o.parentId →
      Event.handle_event o (XEvent.ConfigureNotify w width height) = Event.Unkown) := by
  refine ⟨?_, ?_, ?_⟩
  · intro h1 h2
    simp [Event.handle_event, h1, h2]
  · intro h1 h2
    simp [Event.handle_event, h1, h2]
  · intro h1
    simp [Event.handle_event, h1]

/-- Witness for `configure_notify_translation`: parent handle 5, recorded
size 800×600, notifications of size 1024×768 (resize), 800×600 (same
size), and one on handle 6. -/
theorem configure_notify_translation_witness :
    Event.handle_event ⟨5, ⟨800, 600⟩, ⟨0, 0⟩, false⟩ (XEvent.ConfigureNotify 5 1024 768)
      = Event.ParentResize ⟨1024, 768⟩
    ∧ Event.handle_event ⟨5, ⟨800, 600⟩, ⟨0, 0⟩, false⟩ (XEvent.ConfigureNotify 5 800 600)
      = Event.Unkown
    ∧ Event.handle_event ⟨5, ⟨800, 600⟩, ⟨0, 0⟩, false⟩ (XEvent.ConfigureNotify 6 1024 768)
      = Event.Unkown :=
  ⟨(configure_notify_translation ⟨5, ⟨800, 600⟩, ⟨0, 0⟩, false⟩ 5 1024 768).1
      rfl (by decide),
    (configure_notify_translation ⟨5, ⟨800, 600⟩, ⟨0, 0⟩, false⟩ 5 800 600).2.1
      rfl rfl,
    (configure_notify_translation ⟨5, ⟨800, 600⟩, ⟨0, 0⟩, false⟩ 6 1024 768).2.2
      (by decide)⟩

/-! ## C7 — focus gating of key and button presses -/

/-- C7: a raw key-press or raw button-press translated while `has_focus()`
is false yields `Nothing`; with focus held, a key-press yields `KeyPress`
of the mapped key and a button-press yields `MousePress` with button codes
1/2/3 mapped to Left/Middle/Right (anything else to Unknown) and the last
recorded mouse coordinate. -/
theorem focus_gating_translation (o : EventCtx) (detail : Nat) :
    (o.focus = false →
      Event.handle_event o (XEvent.XinputRawKeyPress detail) = Event.Nothing
      ∧ Event.handle_event o (XEvent.XinputRawButtonPress detail) = Event.Nothing)
    ∧ (o.focus = true →
      Event.handle_event o (XEvent.XinputRawKeyPress detail)
        = Event.KeyPress (Key.from_xorg_raw (detail % 256))
      ∧ Event.handle_event o (XEvent.XinputRawButtonPress detail)
        = Event.MousePress (Button.ofDetail detail) o.lastMousePos)
    ∧ Button.ofDetail 1 = Button.Left
    ∧ Button.ofDetail 2 = Button.Middle
    ∧ Button.ofDetail 3 = Button.Right
    ∧ (detail ≠ 1 → detail ≠ 2 → detail ≠ 3 → Button.ofDetail detail = Button.Unknown) := by
  refine ⟨?_, ?_, by decide, by decide, by decide, ?_⟩
  · intro hfoc
    constructor <;> simp [Event.handle_event, hfoc]
  · intro hfoc
    constructor <;> simp [Event.handle_event, hfoc]
  · intro h1 h2 h3
    simp [Button.ofDetail, h1, h2, h3]

/-- Witness for `focus_gating_translation`: without focus a key-press and
a button-press both become `Nothing`; with focus, keycode 111 maps to
`ArrowUp` and button 2 to `Middle` at the recorded coordinate. -/
theorem focus_gating_translation_witness :
    Event.handle_event ⟨5, ⟨800, 600⟩, ⟨0, 0⟩, false⟩ (XEvent.XinputRawKeyPress 111)
      = Event.Nothing
    ∧ Event.handle_event ⟨5, ⟨800, 600⟩, ⟨0, 0⟩, false⟩ (XEvent.XinputRawButtonPress 2)
      = Event.Nothing
    ∧ Event.handle_event ⟨5, ⟨800, 600⟩, ⟨0, 0⟩, true⟩ (XEvent.XinputRawKeyPress 111)
      = Event.KeyPress (Key.from_xorg_raw 111)
    ∧ Event.handle_event ⟨5, ⟨800, 600⟩, ⟨0, 0⟩, true⟩ (XEvent.XinputRawButtonPress 2)
      = Event.MousePress Button.Middle ⟨0, 0⟩
    ∧ Button.ofDetail 9 = Button.Unknown := by
  refine ⟨((focus_gating_translation ⟨5, ⟨800, 600⟩, ⟨0, 0⟩, false⟩ 111).1 rfl).1,
    ((focus_gating_translation ⟨5, ⟨800, 600⟩, ⟨0, 0⟩, false⟩ 2).1 rfl).2,
    ?_, ?_,
    (focus_gating_translation ⟨5, ⟨800, 600⟩, ⟨0, 0⟩, true⟩ 9).2.2.2.2.2
      (by decide) (by decide) (by decide)⟩
  · have h := ((focus_gating_translation ⟨5, ⟨800, 600⟩, ⟨0, 0⟩, true⟩ 111).2.1 rfl).1
    simpa using h
  · have h := ((focus_gating_translation ⟨5, ⟨800, 600⟩, ⟨0, 0⟩, true⟩ 2).2.1 rfl).2
    simpa [Button.ofDetail] using h

/-! ## C9 — the raw-motion coordinate wraparound -/

/-- C9: the source intends to reinterpret the `i32` motion coordinate as
an unsigned 16-bit offset (its comment says so, and the spec records the
reinterpretation as a wraparound modulo 65536), but the code computes
`event_x % (u16::MAX as i32)`, i.e. the truncated remainder modulo 65535.
At `event_x = 65535` the code maps the coordinate to 0 while the u16
reinterpretation is 65535; at `event_x = 70000` the code yields 4465
instead of 4464; and a negative `event_x` stays negative instead of
wrapping.  The translation itself emits `MouseMotion` with the wrapped
value divided by the overlay extent, with no focus gate. -/
theorem motion_wraparound_off_by_one :
    Event.handle_event ⟨5, ⟨100, 100⟩, ⟨0, 0⟩, false⟩ (XEvent.XinputMotion 65535 0)
      = Event.MouseMotion ⟨0, 0⟩
    ∧ Event.handle_event ⟨5, ⟨100, 100⟩, ⟨0, 0⟩, true⟩ (XEvent.XinputMotion 65535 0)
      = Event.MouseMotion ⟨0, 0⟩
    ∧ Int.tmod 65535 65535 = 0
    ∧ (65535 : Int) % 65536 = 65535
    ∧ Int.tmod 70000 65535 = 4465
    ∧ (70000 : Int) % 65536 = 4464
    ∧ (4465 : Int) ≠ 4464
    ∧ Int.tmod (-1) 65535 = -1 := by
  refine ⟨?_, ?_, by decide, by decide, by decide, by decide, by decide, by decide⟩
  · simp [Event.handle_event]
  · simp [Event.handle_event]

/-! ## C4 — geometry resolution rejects out-of-bounds mappings -/

/-- C5 (amended): with resize policy `KeepBoth` and a full-screen overlay,
after a resize from 800×600 to 1600×600 a queued shape at fractional
position (1/2,1/2) with fractional size (1/4,1/4) is recomputed to
position (1/4,1/2) and size (1/8,1/4): its pixel position and pixel extent
are unchanged, and the stored fraction on the resized axis is halved (old
fraction times old/new extent), not doubled. -/
theorem keep_both_preserves_pixel_geometry :
    (Overlay.refresh
        ⟨⟨800, 600⟩, ⟨Mapping.FullScreen, ⟨0, 0⟩, ⟨800, 600⟩⟩,
          [⟨⟨1/2, 1/2⟩, ⟨1/4, 1/4⟩⟩], ResizePolicy.KeepBoth⟩
        ⟨1600, 600⟩).1.shapes
      = [⟨⟨1/4, 1/2⟩, ⟨1/8, 1/4⟩⟩]
    ∧ (1/4 : ℚ) * 1600 = (1/2 : ℚ) * 800
    ∧ (1/8 : ℚ) * 1600 = (1/4 : ℚ) * 800
    ∧ (1/4 : ℚ) = (1/2 : ℚ) * 800 / 1600 := by
  refine ⟨?_, by norm_num, by norm_num, by norm_num⟩
  rw [Overlay.refresh, if_neg (by decide)]
  simp [Window.refresh, Window.resolve, applyResizePolicy, Vec2.hammard,
    Vec2.inv_hammard, Vec2.convert]
  norm_num

/-- C5 counterexample: in the same scenario the stored x fraction after
the resize is 1/4, which is not the doubled fraction 1 = 2·(1/2) the claim
asserts (it is the halved one). -/
theorem keep_both_fraction_not_doubled :
    ((Overlay.refresh
        ⟨⟨800, 600⟩, ⟨Mapping.FullScreen, ⟨0, 0⟩, ⟨800, 600⟩⟩,
          [⟨⟨1/2, 1/2⟩, ⟨1/4, 1/4⟩⟩], ResizePolicy.KeepBoth⟩
        ⟨1600, 600⟩).1.shapes.map (fun s => s.pos.x))
      = [(1/4 : ℚ)]
    ∧ (1/4 : ℚ) ≠ 2 * (1/2 : ℚ) := by
  constructor
  · rw [Overlay.refresh, if_neg (by decide)]
    simp [Window.refresh, Window.resolve, applyResizePolicy, Vec2.hammard,
      Vec2.inv_hammard, Vec2.convert]
    norm_num
  · norm_num

/-! ## C8 — idempotence of `Overlay::refresh` -/

/-- C8 (amended): `Overlay::refresh` is a no-op — no recorded-geometry
change, no shape rescale, no server request — exactly when the incoming
parent extent equals the overlay window's recorded size, which after one
refresh is the case for the `FullScreen` mapping; so refresh-twice
idempotence holds for `FullScreen`, the guard being a comparison against
the overlay's size rather than the parent's. -/
theorem refresh_idempotent_characterisation (st : OverlayGeom) (s : Vec2 Nat) :
    (s = st.window.size → Overlay.refresh st s = (st, 0, none))
    ∧ (st.window.mapping = Mapping.FullScreen →
        Overlay.refresh (Overlay.refresh st s).1 s = ((Overlay.refresh st s).1, 0, none)) := by
  have hfirst : ∀ st2 : OverlayGeom, s = st2.window.size →
      Overlay.refresh st2 s = (st2, 0, none) := by
    intro st2 h
    rw [Overlay.refresh, if_pos h]
  refine ⟨hfirst st, ?_⟩
  intro hm
  obtain ⟨stP, ⟨m, wpos, wsize⟩, stSh, stPol⟩ := st
  simp only at hm
  subst hm
  by_cases h : s = wsize
  · rw [hfirst ⟨stP, ⟨Mapping.FullScreen, wpos, wsize⟩, stSh, stPol⟩ h]
    exact hfirst _ h
  · have hcall : Overlay.refresh ⟨stP, ⟨Mapping.FullScreen, wpos, wsize⟩, stSh, stPol⟩ s
        = (⟨s, ⟨Mapping.FullScreen, ⟨0, 0⟩, s⟩, applyResizePolicy stPol wsize s stSh,
            stPol⟩, 1, none) := by
      rw [Overlay.refresh, if_neg h]
      rfl
    rw [hcall]
    exact hfirst _ rfl

/-- Witness for `refresh_idempotent_characterisation`: a concrete
full-screen overlay at 800×600; refreshing with 800×600 is a no-op and a
second refresh after resizing to 1600×600 is a no-op. -/
theorem refresh_idempotent_characterisation_witness :
    Overlay.refresh
        ⟨⟨800, 600⟩, ⟨Mapping.FullScreen, ⟨0, 0⟩, ⟨800, 600⟩⟩, [], ResizePolicy.KeepBoth⟩
        ⟨800, 600⟩
      = (⟨⟨800, 600⟩, ⟨Mapping.FullScreen, ⟨0, 0⟩, ⟨800, 600⟩⟩, [], ResizePolicy.KeepBoth⟩,
          0, none)
    ∧ Overlay.refresh
        (Overlay.refresh
          ⟨⟨800, 600⟩, ⟨Mapping.FullScreen, ⟨0, 0⟩, ⟨800, 600⟩⟩, [], ResizePolicy.KeepBoth⟩
          ⟨1600, 600⟩).1 ⟨1600, 600⟩
      = ((Overlay.refresh
          ⟨⟨800, 600⟩, ⟨Mapping.FullScreen, ⟨0, 0⟩, ⟨800, 600⟩⟩, [], ResizePolicy.KeepBoth⟩
          ⟨1600, 600⟩).1, 0, none) :=
  ⟨(refresh_idempotent_characterisation
      ⟨⟨800, 600⟩, ⟨Mapping.FullScreen, ⟨0, 0⟩, ⟨800, 600⟩⟩, [], ResizePolicy.KeepBoth⟩
      ⟨800, 600⟩).1 rfl,
    (refresh_idempotent_characterisation
      ⟨⟨800, 600⟩, ⟨Mapping.FullScreen, ⟨0, 0⟩, ⟨800, 600⟩⟩, [], ResizePolicy.KeepBoth⟩
      ⟨1600, 600⟩).2 rfl⟩

/-- C8 counterexample: with a `Pixels` mapping (overlay size 60×10, which
never equals the 200×200 parent extent) and the `KeepWidth` policy, the
second of two `refresh` calls with the same parent extent is not a no-op:
it issues another configure request and rescales the queued shape again
(x fraction 3/20 after the first call, 9/200 after the second). -/
theorem refresh_second_call_not_idempotent :
    (Overlay.refresh
        (Overlay.refresh
          ⟨⟨100, 100⟩, ⟨Mapping.Pixels ⟨50, 50⟩ ⟨60, 10⟩, ⟨50, 50⟩, ⟨60, 10⟩⟩,
            [⟨⟨1/2, 1/2⟩, ⟨1/4, 1/4⟩⟩], ResizePolicy.KeepWidth⟩
          ⟨200, 200⟩).1 ⟨200, 200⟩).2.1 = 1
    ∧ (Overlay.refresh
        (Overlay.refresh
          ⟨⟨100, 100⟩, ⟨Mapping.Pixels ⟨50, 50⟩ ⟨60, 10⟩, ⟨50, 50⟩, ⟨60, 10⟩⟩,
            [⟨⟨1/2, 1/2⟩, ⟨1/4, 1/4⟩⟩], ResizePolicy.KeepWidth⟩
          ⟨200, 200⟩).1 ⟨200, 200⟩).1.shapes.map (fun sh => sh.pos.x) = [(9/200 : ℚ)]
    ∧ (Overlay.refresh
          ⟨⟨100, 100⟩, ⟨Mapping.Pixels ⟨50, 50⟩ ⟨60, 10⟩, ⟨50, 50⟩, ⟨60, 10⟩⟩,
            [⟨⟨1/2, 1/2⟩, ⟨1/4, 1/4⟩⟩], ResizePolicy.KeepWidth⟩
          ⟨200, 200⟩).1.shapes.map (fun sh => sh.pos.x) = [(3/20 : ℚ)]
    ∧ (9/200 : ℚ) ≠ (3/20 : ℚ) := by
  have h1 : Overlay.refresh
      ⟨⟨100, 100⟩, ⟨Mapping.Pixels ⟨50, 50⟩ ⟨60, 10⟩, ⟨50, 50⟩, ⟨60, 10⟩⟩,
        [⟨⟨1/2, 1/2⟩, ⟨1/4, 1/4⟩⟩], ResizePolicy.KeepWidth⟩
      ⟨200, 200⟩
      = (⟨⟨200, 200⟩, ⟨Mapping.Pixels ⟨50, 50⟩ ⟨60, 10⟩, ⟨50, 50⟩, ⟨60, 10⟩⟩,
          [⟨⟨3/20, 1/2⟩, ⟨3/40, 1/4⟩⟩], ResizePolicy.KeepWidth⟩, 1, none) := by
    rw [Overlay.refresh, if_neg (by decide)]
    simp [Window.refresh, Window.resolve, applyResizePolicy]
    norm_num
  have h2 : Overlay.refresh
      ⟨⟨200, 200⟩, ⟨Mapping.Pixels ⟨50, 50⟩ ⟨60, 10⟩, ⟨50, 50⟩, ⟨60, 10⟩⟩,
        [⟨⟨3/20, 1/2⟩, ⟨3/40, 1/4⟩⟩], ResizePolicy.KeepWidth⟩
      ⟨200, 200⟩
      = (⟨⟨200, 200⟩, ⟨Mapping.Pixels ⟨50, 50⟩ ⟨60, 10⟩, ⟨50, 50⟩, ⟨60, 10⟩⟩,
          [⟨⟨9/200, 1/2⟩, ⟨9/400, 1/4⟩⟩], ResizePolicy.KeepWidth⟩, 1, none) := by
    rw [Overlay.refresh, if_neg (by decide)]
    simp [Window.refresh, Window.resolve, applyResizePolicy]
    norm_num
  have h1a : (Overlay.refresh
      ⟨⟨100, 100⟩, ⟨Mapping.Pixels ⟨50, 50⟩ ⟨60, 10⟩, ⟨50, 50⟩, ⟨60, 10⟩⟩,
        [⟨⟨1/2, 1/2⟩, ⟨1/4, 1/4⟩⟩], ResizePolicy.KeepWidth⟩
      ⟨200, 200⟩).1
      = ⟨⟨200, 200⟩, ⟨Mapping.Pixels ⟨50, 50⟩ ⟨60, 10⟩, ⟨50, 50⟩, ⟨60, 10⟩⟩,
          [⟨⟨3/20, 1/2⟩, ⟨3/40, 1/4⟩⟩], ResizePolicy.KeepWidth⟩ := by
    rw [h1]
  refine ⟨?_, ?_, ?_, by norm_num⟩
  · rw [h1a, h2]
  · rw [h1a, h2]
    rfl
  · rw [h1a]
    rfl

/-! ## C6 — the debounce filter -/

/-- Unfolding `Overlay::handle_event`'s debounce step for a `Redraw`
candidate: slot 5, window 25ms, and a draw on acceptance. -/
theorem handleEventStep_redraw (tbl : DebounceTable) (d now : Nat) :
    Overlay.handleEventStep ⟨tbl, d⟩ now Event.Redraw
      = if now - tbl 5 < 25 then ⟨tbl, d⟩
        else ⟨fun j => if j = 5 then now else tbl j, d + 1⟩ := by
  by_cases h : now - tbl 5 < 25 <;>
    simp [Overlay.handleEventStep, Event.is_debounce, Event.debounce_table_index,
      Event.debounce_table_timing, h]

/-- C6 (amended): each `Event` variant maps to a fixed debounce-table
slot; `Redraw` has a 25ms window and every other variant a 0ms window, so
no other variant is ever discarded; a `Redraw` candidate is discarded
exactly when less than 25ms has elapsed since its slot's timestamp (the
last accepted `Redraw`, or the table's initialisation instant before any
was accepted); and once the first of two `Redraw` candidates arrives at
least 25ms after the slot's timestamp, a second one under 25ms later is
dropped (one draw) while a second one 25ms or more later is dispatched
(two draws). -/
theorem redraw_debounce_characterisation (e : Event) (tbl : DebounceTable)
    (now t1 t2 : Nat) :
    Event.debounce_table_timing Event.Redraw = 25
    ∧ Event.debounce_table_index Event.Redraw = 5
    ∧ (∀ sz, (Event.ParentResize sz).debounce_table_index = 0)
    ∧ (∀ b c, (Event.MousePress b c).debounce_table_index = 1)
    ∧ (∀ c, (Event.MouseMotion c).debounce_table_index = 2)
    ∧ (∀ k, (Event.KeyPress k).debounce_table_index = 3)
    ∧ (∀ k, (Event.KeyRelease k).debounce_table_index = 4)
    ∧ Event.StopEventLoop.debounce_table_index = 6
    ∧ Event.Nothing.debounce_table_index = 7
    ∧ Event.Unkown.debounce_table_index = 8
    ∧ (e ≠ Event.Redraw →
        e.debounce_table_timing = 0 ∧ (Event.is_debounce e now tbl).1 = false)
    ∧ ((Event.is_debounce Event.Redraw now tbl).1 = true ↔ now - tbl 5 < 25)
    ∧ (25 ≤ t1 - tbl 5 →
        (t2 - t1 < 25 →
          (Overlay.runEvents ⟨tbl, 0⟩ [(t1, Event.Redraw), (t2, Event.Redraw)]).draws = 1)
        ∧ (25 ≤ t2 - t1 →
          (Overlay.runEvents ⟨tbl, 0⟩ [(t1, Event.Redraw), (t2, Event.Redraw)]).draws = 2)) := by
  refine ⟨rfl, rfl, fun _ => rfl, fun _ _ => rfl, fun _ => rfl, fun _ => rfl, fun _ => rfl,
    rfl, rfl, rfl, ?_, ?_, ?_⟩
  · intro hne
    have ht : e.debounce_table_timing = 0 := by
      cases e
      case Redraw => exact absurd rfl hne
      all_goals rfl
    refine ⟨ht, ?_⟩
    rw [Event.is_debounce, ht]
    simp
  · rw [Event.is_debounce]
    by_cases h : now - tbl 5 < 25
    · rw [if_pos]
      · simpa using h
      · exact h
    · rw [if_neg]
      · simpa using h
      · exact h
  · intro h1
    have hnot1 : ¬ (t1 - tbl 5 < 25) := not_lt.mpr h1
    have step1 : Overlay.handleEventStep ⟨tbl, 0⟩ t1 Event.Redraw
        = ⟨fun j => if j = 5 then t1 else tbl j, 1⟩ := by
      rw [handleEventStep_redraw, if_neg hnot1]
    constructor
    · intro h2
      show (Overlay.handleEventStep
        (Overlay.handleEventStep ⟨tbl, 0⟩ t1 Event.Redraw) t2 Event.Redraw).draws = 1
      rw [step1, handleEventStep_redraw]
      simp [h2]
    · intro h2
      have hnot2 : ¬ (t2 - t1 < 25) := not_lt.mpr h2
      show (Overlay.handleEventStep
        (Overlay.handleEventStep ⟨tbl, 0⟩ t1 Event.Redraw) t2 Event.Redraw).draws = 2
      rw [step1, handleEventStep_redraw]
      simp [hnot2]

/-- Witness for `redraw_debounce_characterisation`: with the table
initialised at 0, `Nothing` at time 0 passes the filter, a `Redraw` at
time 10 is discarded, and `Redraw`s at times 30 and 45 (under 25ms apart)
yield one draw while `Redraw`s at times 30 and 60 yield two. -/
theorem redraw_debounce_characterisation_witness :
    (Event.is_debounce Event.Nothing 0 (fun _ => 0)).1 = false
    ∧ ((Event.is_debounce Event.Redraw 10 (fun _ => 0)).1 = true ↔ 10 - 0 < 25)
    ∧ (Overlay.runEvents ⟨fun _ => 0, 0⟩ [(30, Event.Redraw), (45, Event.Redraw)]).draws = 1
    ∧ (Overlay.runEvents ⟨fun _ => 0, 0⟩ [(30, Event.Redraw), (60, Event.Redraw)]).draws = 2 :=
  ⟨((redraw_debounce_characterisation Event.Nothing (fun _ => 0) 0 30 45).2.2.2.2.2.2.2.2.2.2.1
      (by decide)).2,
    by
      have h := (redraw_debounce_characterisation Event.Nothing (fun _ => 0) 10 30 45).2.2.2.2.2.2.2.2.2.2.2.1
      simpa using h,
    ((redraw_debounce_characterisation Event.Nothing (fun _ => 0) 0 30 45).2.2.2.2.2.2.2.2.2.2.2.2
      (by decide)).1 (by decide),
    ((redraw_debounce_characterisation Event.Nothing (fun _ => 0) 0 30 60).2.2.2.2.2.2.2.2.2.2.2.2
      (by decide)).2 (by decide)⟩

/-- C6 counterexample: the debounce table is initialised to the creation
instant, so two `Redraw` candidates arriving 10ms apart but both within
25ms of initialisation (times 10 and 20) are both discarded: zero draws,
not the claimed exactly one. -/
theorem redraw_debounce_startup_drops_both :
    (Overlay.runEvents ⟨fun _ => 0, 0⟩ [(10, Event.Redraw), (20, Event.Redraw)]).draws = 0
    ∧ 20 - 10 < 25
    ∧ (0 : Nat) ≠ 1 := by
  refine ⟨?_, by decide, by decide⟩
  rfl

end XOverlay
